import Mathlib

/-!
Verification of the STM32 LTDC framebuffer driver
(drivers/video/fbdev/stm32-ltdc.c) against its design document.

The development shallowly embeds the timing, buffer and lifecycle
arithmetic of the driver: machine integers are modelled as Nat with
explicit reduction mod 2 ^ 32 where the C code stores into u32 or
unsigned long fields, and fallible operations return Except.
-/

namespace LTDC

/-! Register byte offsets, fixed by hardware (lines 39 to 51 of the source). -/

def LTDC_L1CFBAR : Nat := 0xac

def LTDC_L1CFBLR : Nat := 0xb0

def LTDC_L1PFCR : Nat := 0x94

def LTDC_L1CR : Nat := 0x84

def LTDC_IER : Nat := 0x34

def LTDC_ICR : Nat := 0x3c

def LTDC_GCR : Nat := 0x18

def LTDC_SSCR : Nat := 0x8

def LTDC_BPCR : Nat := 0xc

def LTDC_AWCR : Nat := 0x10

def LTDC_TWCR : Nat := 0x14

def CNTL_LCDEN : Nat := 1

def LTDC_ARGB : Nat := 0

/-- Modulus of a 32-bit unsigned machine word (u32, and unsigned long on ARM32). -/
def U32 : Nat := 2 ^ 32

/-- The fields of struct fb_videomode used by the driver; all are u32 in C. -/
structure fb_videomode where
  xres : Nat
  yres : Nat
  pixclock : Nat
  left_margin : Nat
  right_margin : Nat
  upper_margin : Nat
  lower_margin : Nat
  hsync_len : Nat
  vsync_len : Nat
deriving DecidableEq

/-- PICOS2KHZ from include/uapi/linux/fb.h: 1000000000 / picoseconds, giving kHz. -/
def PICOS2KHZ (a : Nat) : Nat := 1000000000 / a

/-- Linux rounddown_pow_of_two: the largest power of two not exceeding n.
The kernel macro is 1 shifted by ilog2 n and is only defined for n at least 1;
this model extends it with value 1 at 0, and every theorem that relies on it
restricts to the defined domain. -/
def rounddown_pow_of_two (n : Nat) : Nat := 2 ^ Nat.log2 n

/-- The bpp computation of ltdcfb_of_init (lines 498 to 502) when the
max-memory-bandwidth property is present: the rearranged division
max_bandwidth / (1000 / 8) / PICOS2KHZ pixclock, rounded down to a power of
two and clamped to 32. -/
def ltdcfb_of_init_bpp (max_bandwidth pixclock : Nat) : Nat :=
  let bpp := max_bandwidth / (1000 / 8) / PICOS2KHZ pixclock
  let bpp2 := rounddown_pow_of_two bpp
  if bpp2 > 32 then 32 else bpp2

/-- The bpp ltdcfb_of_init stores into the panel descriptor: the computed value
when a bandwidth budget is present, 32 otherwise (lines 490 to 506). -/
def ltdcfb_resolved_bpp : Option Nat → Nat → Nat
  | some b, pixclock => ltdcfb_of_init_bpp b pixclock
  | none, _ => 32

/-- Outcome of the bpp-resolution portion of ltdcfb_of_init: the function
performs no validity check on the computed bpp and always succeeds,
returning 0 after storing the value (lines 488 to 511 of the source contain
no error branch after the bandwidth property is read). -/
def ltdcfb_of_init_result (bw : Option Nat) (pixclock : Nat) : Except Int Nat :=
  Except.ok (ltdcfb_resolved_bpp bw pixclock)

/-- Reference bpp definition taken from the design document: floor of
8 * bandwidth / (PICOS2KHZ pixclock * 1000), rounded down to the nearest
power of two and clamped to a maximum of 32. -/
def spec_resolved_bpp (b pixclock : Nat) : Nat :=
  min (rounddown_pow_of_two (8 * b / (PICOS2KHZ pixclock * 1000))) 32

/-- Claim C1: for every bandwidth budget and pixel clock (with a positive
pixel-clock frequency and a raw quotient of at least 1, so the C computation
is defined), the resolved bpp of the driver equals the reference definition
of the design document, and without a budget the resolved bpp is exactly 32. -/
theorem C1_resolved_bpp_matches_spec (b p : Nat) (hp : 0 < PICOS2KHZ p)
    (hraw : 1 ≤ b / (1000 / 8) / PICOS2KHZ p) :
    ltdcfb_resolved_bpp (some b) p = spec_resolved_bpp b p ∧
    ltdcfb_resolved_bpp none p = 32 := by
  refine ⟨?_, rfl⟩
  have key : b / (1000 / 8) / PICOS2KHZ p = 8 * b / (PICOS2KHZ p * 1000) := by
    have h8 : (1000 : Nat) / 8 = 125 := rfl
    rw [h8, Nat.div_div_eq_div_mul]
    have hm : PICOS2KHZ p * 1000 = 8 * (125 * PICOS2KHZ p) := by ring
    rw [hm, Nat.mul_div_mul_left _ _ (by norm_num)]
  simp only [ltdcfb_resolved_bpp, ltdcfb_of_init_bpp, spec_resolved_bpp, key]
  rcases le_or_lt (rounddown_pow_of_two (8 * b / (PICOS2KHZ p * 1000))) 32 with h | h
  · rw [if_neg (by omega), Nat.min_eq_left h]
  · rw [if_pos h, Nat.min_eq_right (by omega)]

/-- Concrete instance of claim C1 at bandwidth 100000000 bytes per second and
pixel clock 38000 picoseconds. -/
theorem C1_resolved_bpp_matches_spec_witness :
    0 < PICOS2KHZ 38000 ∧ 1 ≤ 100000000 / (1000 / 8) / PICOS2KHZ 38000 ∧
    (ltdcfb_resolved_bpp (some 100000000) 38000 = spec_resolved_bpp 100000000 38000 ∧
     ltdcfb_resolved_bpp none 38000 = 32) :=
  ⟨by decide, by decide,
   C1_resolved_bpp_matches_spec 100000000 38000 (by decide) (by decide)⟩

/-- Claim C2 is false on the code: with a bandwidth budget of 0 (raw bpp 0)
the resolve step of ltdcfb_of_init still succeeds instead of failing,
because the source has no lower-bound check on the computed bpp. -/
theorem C2_counterexample :
    8 * 0 / (PICOS2KHZ 38000 * 1000) = 0 ∧
    (ltdcfb_of_init_result (some 0) 38000).isOk = true := by decide

/-- Claim C2 amended: the resolve step never fails for bandwidth reasons; for
every budget it returns success, and for budget 0 it stores
rounddown_pow_of_two 0 (a value the C macro leaves undefined) instead of
reporting an error. -/
theorem C2_no_minimum_bpp_check (b p : Nat) :
    (ltdcfb_of_init_result (some b) p).isOk = true ∧
    ltdcfb_of_init_result (some 0) p = Except.ok (rounddown_pow_of_two 0) := by
  constructor
  · rfl
  · simp [ltdcfb_of_init_result, ltdcfb_resolved_bpp, ltdcfb_of_init_bpp,
      Nat.zero_div, rounddown_pow_of_two]

/-! Timing registers programmed by ltdcfb_register (lines 368 to 378). -/

/-- SSCR value written at line 368: vertical sync length minus one in the low
half, horizontal sync length minus one shifted by 16, truncated to u32. -/
def code_SSCR (m : fb_videomode) : Nat :=
  ((m.vsync_len - 1) ||| ((m.hsync_len - 1) <<< 16)) % U32

/-- BPCR value written at line 370: cumulative sync plus upper and left
margins, count-minus-one encoded, truncated to u32. -/
def code_BPCR (m : fb_videomode) : Nat :=
  ((m.vsync_len + m.upper_margin - 1) |||
    ((m.hsync_len + m.left_margin - 1) <<< 16)) % U32

/-- AWCR value written at line 373: the source adds the hardcoded constants
272 and 480 rather than the active height and width of the mode. -/
def code_AWCR (m : fb_videomode) : Nat :=
  ((m.vsync_len + m.upper_margin + 272 - 1) |||
    ((m.hsync_len + m.left_margin + 480 - 1) <<< 16)) % U32

/-- TWCR value written at line 376: again with the hardcoded 272 and 480. -/
def code_TWCR (m : fb_videomode) : Nat :=
  ((m.vsync_len + m.upper_margin + 272 + m.lower_margin - 1) |||
    ((m.hsync_len + m.left_margin + 480 + m.right_margin - 1) <<< 16)) % U32

/-- Sync-size formula of the design document, stated on the mode fields. -/
def spec_SSCR (m : fb_videomode) : Nat :=
  (m.vsync_len - 1) ||| ((m.hsync_len - 1) <<< 16)

/-- Back-porch formula of the design document, stated on the mode fields. -/
def spec_BPCR (m : fb_videomode) : Nat :=
  (m.vsync_len + m.upper_margin - 1) |||
    ((m.hsync_len + m.left_margin - 1) <<< 16)

/-- Active-width formula of the design document: the cumulative sum uses the
active height yres and active width xres of the mode itself. -/
def spec_AWCR (m : fb_videomode) : Nat :=
  ((m.vsync_len + m.upper_margin + m.yres - 1) |||
    ((m.hsync_len + m.left_margin + m.xres - 1) <<< 16)) % U32

/-- Total-width formula of the design document: the active-width fields plus
the lower and right margins respectively. -/
def spec_TWCR (m : fb_videomode) : Nat :=
  ((m.vsync_len + m.upper_margin + m.yres + m.lower_margin - 1) |||
    ((m.hsync_len + m.left_margin + m.xres + m.right_margin - 1) <<< 16)) % U32

/-- The worked 480x272 panel mode of the design document: hsync 41, vsync 10,
left margin 13, right margin 32, upper margin 2, lower margin 2. -/
def mode480 : fb_videomode :=
  { xres := 480, yres := 272, pixclock := 38000, left_margin := 13,
    right_margin := 32, upper_margin := 2, lower_margin := 2,
    hsync_len := 41, vsync_len := 10 }

/-- An 800x480 mode with the same sync lengths and margins. -/
def mode800 : fb_videomode :=
  { xres := 800, yres := 480, pixclock := 38000, left_margin := 13,
    right_margin := 32, upper_margin := 2, lower_margin := 2,
    hsync_len := 41, vsync_len := 10 }

/-- Claim C3 is false on the code: for the 800x480 mode the active-width
register value computed by the source differs from the cumulative sum over
the fields of that mode, because the source hardcodes 480 and 272. -/
theorem C3_counterexample : code_AWCR mode800 ≠ spec_AWCR mode800 := by decide

/-- Claim C3 amended: the active-width and total-width register values agree
with the cumulative sums over the mode fields exactly for modes whose active
resolution is 480x272, the constants the source hardcodes. -/
theorem C3_active_total_width_hardcoded (m : fb_videomode)
    (hx : m.xres = 480) (hy : m.yres = 272) :
    code_AWCR m = spec_AWCR m ∧ code_TWCR m = spec_TWCR m := by
  constructor
  · simp [code_AWCR, spec_AWCR, hx, hy]
  · simp [code_TWCR, spec_TWCR, hx, hy]

/-- Instance of the amended claim C3 at the worked 480x272 mode. -/
theorem C3_active_total_width_hardcoded_witness :
    mode480.xres = 480 ∧ mode480.yres = 272 ∧
    (code_AWCR mode480 = spec_AWCR mode480 ∧
     code_TWCR mode480 = spec_TWCR mode480) :=
  ⟨by decide, by decide,
   C3_active_total_width_hardcoded mode480 (by decide) (by decide)⟩

/-- Claim C4: for positive sync lengths (and fields small enough that the
packed pair fits a u32, as on real panels) the sync-size and back-porch
register values equal the formulas of the design document, and at the worked
mode the values are 0x00280009 and 0x0035000B. -/
theorem C4_sync_size_back_porch (m : fb_videomode)
    (hv : 1 ≤ m.vsync_len) (hh : 1 ≤ m.hsync_len)
    (hvb : m.vsync_len + m.upper_margin ≤ 2 ^ 16)
    (hhb : m.hsync_len + m.left_margin ≤ 2 ^ 16) :
    code_SSCR m = spec_SSCR m ∧ code_BPCR m = spec_BPCR m ∧
    code_SSCR mode480 = 0x00280009 ∧ code_BPCR mode480 = 0x0035000B := by
  refine ⟨?_, ?_, by decide, by decide⟩
  · have hlo : m.vsync_len - 1 < 2 ^ 32 := by omega
    have hhi : (m.hsync_len - 1) <<< 16 < 2 ^ 32 := by
      rw [Nat.shiftLeft_eq]
      have : m.hsync_len - 1 < 2 ^ 16 := by omega
      calc (m.hsync_len - 1) * 2 ^ 16 < 2 ^ 16 * 2 ^ 16 :=
            (Nat.mul_lt_mul_right (by norm_num)).mpr this
        _ = 2 ^ 32 := by norm_num
    exact Nat.mod_eq_of_lt (Nat.or_lt_two_pow hlo hhi)
  · have hlo : m.vsync_len + m.upper_margin - 1 < 2 ^ 32 := by omega
    have hhi : (m.hsync_len + m.left_margin - 1) <<< 16 < 2 ^ 32 := by
      rw [Nat.shiftLeft_eq]
      have : m.hsync_len + m.left_margin - 1 < 2 ^ 16 := by omega
      calc (m.hsync_len + m.left_margin - 1) * 2 ^ 16 < 2 ^ 16 * 2 ^ 16 :=
            (Nat.mul_lt_mul_right (by norm_num)).mpr this
        _ = 2 ^ 32 := by norm_num
    exact Nat.mod_eq_of_lt (Nat.or_lt_two_pow hlo hhi)

/-- Instance of claim C4 at the worked 480x272 mode. -/
theorem C4_sync_size_back_porch_witness :
    1 ≤ mode480.vsync_len ∧ 1 ≤ mode480.hsync_len ∧
    mode480.vsync_len + mode480.upper_margin ≤ 2 ^ 16 ∧
    mode480.hsync_len + mode480.left_margin ≤ 2 ^ 16 ∧
    (code_SSCR mode480 = spec_SSCR mode480 ∧
     code_BPCR mode480 = spec_BPCR mode480 ∧
     code_SSCR mode480 = 0x00280009 ∧ code_BPCR mode480 = 0x0035000B) :=
  ⟨by decide, by decide, by decide, by decide,
   C4_sync_size_back_porch mode480 (by decide) (by decide) (by decide) (by decide)⟩

/-! The pan operation ltdcfb_set_start (lines 86 to 99). -/

/-- Ordered register writes of ltdcfb_set_start, as offset and value pairs.
The locals ustart and lstart are 32-bit unsigned longs; the source computes
ustart as base plus yoffset times line length, then lstart as ustart plus
yres times line length, and writes lstart to the address register. -/
def ltdcfb_set_start (smem_start yoffset yres line_length : Nat) :
    List (Nat × Nat) :=
  let ustart := (smem_start + yoffset * line_length) % U32
  let lstart := (ustart + yres * line_length) % U32
  let len := ((line_length + 3) ||| (line_length <<< 16)) % U32
  [(LTDC_L1CFBAR, lstart), (LTDC_L1CFBLR, len), (LTDC_L1PFCR, LTDC_ARGB)]

/-- The pan start address the design document prescribes: buffer base plus
yoffset times stride. -/
def spec_pan_address (base yoffset line_length : Nat) : Nat :=
  (base + yoffset * line_length) % U32

/-- The value a write list assigns to a register offset. -/
def writtenAt (ws : List (Nat × Nat)) (off : Nat) : Option Nat :=
  (ws.find? (fun p => p.1 == off)).map (fun p => p.2)

/-- Claim C5 is false on the code: at base 1000, yoffset 1, yres 272 and
stride 100 the address written to the fb-address register is not
base plus yoffset times stride; the source writes lstart, which additionally
adds yres times stride. -/
theorem C5_counterexample :
    writtenAt (ltdcfb_set_start 1000 1 272 100) LTDC_L1CFBAR ≠
      some (spec_pan_address 1000 1 100) := by decide

/-- Claim C5 amended: the pan operation writes, in the order address then
length then pixel format, the address base plus (yoffset plus yres) times
stride, the length word (stride plus 3) packed with stride shifted by 16,
and the fixed ARGB format code. -/
theorem C5_pan_writes (base yoffset yres stride : Nat) :
    ltdcfb_set_start base yoffset yres stride =
      [(LTDC_L1CFBAR, (base + (yoffset + yres) * stride) % U32),
       (LTDC_L1CFBLR, ((stride + 3) ||| (stride <<< 16)) % U32),
       (LTDC_L1PFCR, LTDC_ARGB)] := by
  simp only [ltdcfb_set_start, Nat.mod_add_mod]
  rw [Nat.add_mul, ← Nat.add_assoc]

/-! The layer enable and disable operations (lines 101 to 117). -/

/-- Read-modify-write performed by ltdcfb_disable on the layer control
register: val becomes val AND NOT CNTL_LCDEN, where the complement of 1 as
a u32 is 0xFFFFFFFE. -/
def ltdcfb_disable (r : Nat) : Nat := r &&& 0xFFFFFFFE

/-- Read-modify-write performed by ltdcfb_enable on the layer control
register: val becomes val OR CNTL_LCDEN. -/
def ltdcfb_enable (r : Nat) : Nat := r ||| CNTL_LCDEN

theorem or_one_eq (r : Nat) : r ||| 1 = 2 * (r / 2) + 1 := by
  apply Nat.eq_of_testBit_eq
  intro i
  cases i with
  | zero =>
    simp [Nat.testBit_or, Nat.testBit_zero, Nat.mul_add_mod]
  | succ i =>
    rw [Nat.testBit_or, Nat.testBit_succ, Nat.testBit_succ, Nat.testBit_succ]
    simp [Nat.zero_testBit, Nat.mul_add_div]

theorem and_clear_bit0 (r : Nat) (h : r < U32) :
    r &&& 0xFFFFFFFE = 2 * (r / 2) := by
  apply Nat.eq_of_testBit_eq
  intro i
  rw [Nat.testBit_and]
  cases i with
  | zero =>
    simp [Nat.testBit_zero, Nat.mul_mod_right]
  | succ i =>
    have hm : (0xFFFFFFFE : Nat).testBit (i + 1) = decide (i < 31) := by
      rw [Nat.testBit_succ,
        show (0xFFFFFFFE : Nat) / 2 = 2 ^ 31 - 1 from by norm_num,
        Nat.testBit_two_pow_sub_one]
    have h2 : (2 * (r / 2)).testBit (i + 1) = (r / 2).testBit i := by
      rw [Nat.testBit_succ, Nat.mul_div_cancel_left _ (by norm_num)]
    rw [hm, h2, Nat.testBit_succ]
    by_cases hi : i < 31
    · simp [hi]
    · have hr2 : r / 2 < 2 ^ 31 := by
        have : r < 2 ^ 32 := h
        omega
      have : r / 2 < 2 ^ i :=
        lt_of_lt_of_le hr2 (Nat.pow_le_pow_right (by norm_num) (by omega))
      simp [hi, Nat.testBit_lt_two_pow this]

/-- Claim C6 is false on the code: starting from a control register whose
enable bit is already set, applying enable then disable does not restore the
enable bit to its prior value, since disable forces it to 0. -/
theorem C6_counterexample :
    (ltdcfb_disable (ltdcfb_enable 1)).testBit 0 ≠ (1 : Nat).testBit 0 := by
  decide

/-- Claim C6 amended: for every 32-bit register content, enable then disable
leaves every bit other than bit 0 unchanged (the quotient by 2 is preserved)
and forces the enable bit to 0 (restoring the prior value only when that bit
was already clear), and each of enable and disable is idempotent. -/
theorem C6_enable_disable (r : Nat) (h : r < U32) :
    ltdcfb_disable (ltdcfb_enable r) / 2 = r / 2 ∧
    ltdcfb_disable (ltdcfb_enable r) % 2 = 0 ∧
    ltdcfb_enable (ltdcfb_enable r) = ltdcfb_enable r ∧
    ltdcfb_disable (ltdcfb_disable r) = ltdcfb_disable r := by
  have he : ltdcfb_enable r = 2 * (r / 2) + 1 := by
    simp only [ltdcfb_enable, CNTL_LCDEN]
    exact or_one_eq r
  have helt : ltdcfb_enable r < U32 := by
    have h1 : (1 : Nat) < 2 ^ 32 := by norm_num
    exact Nat.or_lt_two_pow h h1
  have hd : ltdcfb_disable (ltdcfb_enable r) = 2 * (r / 2) := by
    rw [ltdcfb_disable, and_clear_bit0 _ helt, he]
    omega
  refine ⟨by omega, by omega, ?_, ?_⟩
  · simp only [ltdcfb_enable, Nat.or_assoc, Nat.or_self]
  · simp only [ltdcfb_disable, Nat.and_assoc, Nat.and_self]

/-- Instance of the amended claim C6 at register content 0xABCD1235 (enable
bit set, arbitrary other bits). -/
theorem C6_enable_disable_witness :
    2882343477 < U32 ∧
    (ltdcfb_disable (ltdcfb_enable 2882343477) / 2 = 2882343477 / 2 ∧
     ltdcfb_disable (ltdcfb_enable 2882343477) % 2 = 0 ∧
     ltdcfb_enable (ltdcfb_enable 2882343477) = ltdcfb_enable 2882343477 ∧
     ltdcfb_disable (ltdcfb_disable 2882343477) = ltdcfb_disable 2882343477) :=
  ⟨by decide, C6_enable_disable 2882343477 (by decide)⟩

/-! Mode checking, set_par and the registered frame-buffer state
(lines 148 to 180 and 238 to 410). -/

def EINVAL : Int := 22

/-- Framebuffer size allocated by ltdcfb_register at line 243: one ARGB
buffer for 480x272. -/
def framesize : Nat := 480 * 272 * 4

/-- Return value of ltdcfb_set_bitfields: only 32 bits per pixel is accepted
(lines 119 to 146). -/
def ltdcfb_set_bitfields (bits_per_pixel : Nat) : Int :=
  if bits_per_pixel = 32 then 0 else -EINVAL

/-- Return value of ltdcfb_check_var (lines 148 to 161): the local ret set by
the capacity comparison is never used, and the function returns the result of
ltdcfb_set_bitfields instead. -/
def ltdcfb_check_var (xres_virtual yres_virtual bits_per_pixel smem_len : Nat) :
    Int :=
  let ret : Int :=
    if xres_virtual * (bits_per_pixel / 8) * yres_virtual > smem_len then
      -EINVAL
    else -EINVAL
  ltdcfb_set_bitfields bits_per_pixel

/-- Claim C7 is right about the intent but the code drops the check: a
candidate mode of 800x480 at 32 bpp exceeds the allocated 480x272x4 buffer,
yet ltdcfb_check_var returns 0 (success) because the computed error value
is stored in a dead local. -/
theorem C7_check_var_ignores_capacity :
    ltdcfb_check_var 800 480 32 framesize = 0 ∧
    800 * (32 / 8) * 480 > framesize := by decide

/-- Frame-buffer bookkeeping fields of struct fb_info used by the driver. -/
structure fb_state where
  smem_len : Nat
  line_length : Nat
  xres_virtual : Nat
  yres_virtual : Nat
  bits_per_pixel : Nat
deriving DecidableEq

/-- ltdcfb_set_par (lines 163 to 180): recomputes the stride as
xres_virtual times bits_per_pixel divided by 8. -/
def ltdcfb_set_par (s : fb_state) : fb_state :=
  { s with line_length := s.xres_virtual * s.bits_per_pixel / 8 }

/-- Frame-buffer state established by ltdcfb_register: a fixed framesize
buffer (line 243 and 314), the virtual resolution and depth taken from the
panel (lines 331 to 335), and then fb_set_var invoking set_par (line 386). -/
def ltdcfb_register_fbstate (m : fb_videomode) (bpp : Nat) : fb_state :=
  ltdcfb_set_par
    { smem_len := framesize, line_length := 0,
      xres_virtual := m.xres, yres_virtual := m.yres, bits_per_pixel := bpp }

/-- Claim C8 is false on the code at 800x480: the allocated buffer is the
fixed 480x272x4 bytes, which is smaller than stride times height for an
800x480 mode at 32 bpp. -/
theorem C8_counterexample :
    ¬ (ltdcfb_register_fbstate mode800 32).smem_len ≥
        (ltdcfb_register_fbstate mode800 32).line_length *
          (ltdcfb_register_fbstate mode800 32).yres_virtual := by decide

/-- Claim C8 amended: after registration (and preserved by any further
set_par call) the stride equals width times bytes per pixel, and the buffer
capacity bound holds exactly when the mode fits the fixed 480x272x4 buffer;
in particular it holds with stride 1920 at 480x272 and 32 bpp, but not for
800x480. -/
theorem C8_stride_and_capacity (m : fb_videomode) (bpp : Nat)
    (h8 : bpp % 8 = 0)
    (hcap : m.xres * (bpp / 8) * m.yres ≤ framesize) :
    (ltdcfb_register_fbstate m bpp).line_length =
      (ltdcfb_register_fbstate m bpp).xres_virtual *
        ((ltdcfb_register_fbstate m bpp).bits_per_pixel / 8) ∧
    (ltdcfb_register_fbstate m bpp).smem_len ≥
      (ltdcfb_register_fbstate m bpp).line_length *
        (ltdcfb_register_fbstate m bpp).yres_virtual ∧
    ltdcfb_set_par (ltdcfb_register_fbstate m bpp) =
      ltdcfb_register_fbstate m bpp ∧
    (ltdcfb_register_fbstate mode480 32).line_length = 480 * 4 ∧
    (ltdcfb_register_fbstate mode480 32).smem_len ≥ 480 * 4 * 272 := by
  have hdvd : (8 : Nat) ∣ bpp := Nat.dvd_of_mod_eq_zero h8
  have hassoc : m.xres * bpp / 8 = m.xres * (bpp / 8) :=
    Nat.mul_div_assoc m.xres hdvd
  refine ⟨?_, ?_, ?_, by decide, by decide⟩
  · simp [ltdcfb_register_fbstate, ltdcfb_set_par, hassoc]
  · simp only [ltdcfb_register_fbstate, ltdcfb_set_par]
    simpa [hassoc] using hcap
  · simp [ltdcfb_register_fbstate, ltdcfb_set_par]

/-- Instance of the amended claim C8 at the 480x272 mode and 32 bpp. -/
theorem C8_stride_and_capacity_witness :
    32 % 8 = 0 ∧
    mode480.xres * (32 / 8) * mode480.yres ≤ framesize ∧
    ((ltdcfb_register_fbstate mode480 32).line_length =
      (ltdcfb_register_fbstate mode480 32).xres_virtual *
        ((ltdcfb_register_fbstate mode480 32).bits_per_pixel / 8) ∧
     (ltdcfb_register_fbstate mode480 32).smem_len ≥
      (ltdcfb_register_fbstate mode480 32).line_length *
        (ltdcfb_register_fbstate mode480 32).yres_virtual ∧
     ltdcfb_set_par (ltdcfb_register_fbstate mode480 32) =
      ltdcfb_register_fbstate mode480 32 ∧
     (ltdcfb_register_fbstate mode480 32).line_length = 480 * 4 ∧
     (ltdcfb_register_fbstate mode480 32).smem_len ≥ 480 * 4 * 272) :=
  ⟨by decide, by decide,
   C8_stride_and_capacity mode480 32 (by decide) (by decide)⟩

/-! The acquisition and unwind structure of ltdcfb_register
(lines 246 to 303 and 392 to 409). -/

/-- Acquisition steps of ltdcfb_register, in program order. -/
inductive AcqStep
  | clkGet
  | clkPrep
  | getResource
  | remapRegs
  | irqLookup
  | irqRequest
  | errIrqRequest
  | dmaAlloc
  | cmapAlloc
  | fbRegister
deriving DecidableEq

/-- Release actions available to the unwind paths. -/
inductive RelAction
  | freeErrIrq
  | freeIrq
  | dmaFree
  | cmapFree
  | unmapRegs
  | clkUnprep
  | clkPut
deriving DecidableEq

/-- Release actions executed by ltdcfb_register when the given step fails,
in execution order, read off the goto chain of the source: the labels are,
in fall-through order, unmap (iounmap), clk_unprep (clk_unprepare),
free_clk (clk_put) and out (return). -/
def codeReleases : AcqStep → List RelAction
  | .clkGet => []
  | .clkPrep => [.clkPut]
  | .getResource => [.clkUnprep, .clkPut]
  | .remapRegs => [.clkUnprep, .clkPut]
  | .irqLookup => [.clkUnprep, .clkPut]
  | .irqRequest => [.clkUnprep, .clkPut]
  | .errIrqRequest => [.clkUnprep, .clkPut]
  | .dmaAlloc => [.clkUnprep, .clkPut]
  | .cmapAlloc => [.unmapRegs, .clkUnprep, .clkPut]
  | .fbRegister => [.cmapFree, .dmaFree, .unmapRegs, .clkUnprep, .clkPut]

/-- The resources acquired before each step, in acquisition order, named by
their release action. -/
def acquiredBefore : AcqStep → List RelAction
  | .clkGet => []
  | .clkPrep => [.clkPut]
  | .getResource => [.clkPut, .clkUnprep]
  | .remapRegs => [.clkPut, .clkUnprep]
  | .irqLookup => [.clkPut, .clkUnprep, .unmapRegs]
  | .irqRequest => [.clkPut, .clkUnprep, .unmapRegs]
  | .errIrqRequest => [.clkPut, .clkUnprep, .unmapRegs, .freeIrq]
  | .dmaAlloc => [.clkPut, .clkUnprep, .unmapRegs, .freeIrq, .freeErrIrq]
  | .cmapAlloc =>
      [.clkPut, .clkUnprep, .unmapRegs, .freeIrq, .freeErrIrq, .dmaFree]
  | .fbRegister =>
      [.clkPut, .clkUnprep, .unmapRegs, .freeIrq, .freeErrIrq, .dmaFree,
       .cmapFree]

/-- The unwind claim C9 requires: release exactly the acquired resources, in
strict reverse order of acquisition. -/
def claimedReleases (s : AcqStep) : List RelAction := (acquiredBefore s).reverse

/-- Claim C9 is false on the code: when interrupt attachment fails the
source jumps to clk_unprep, releasing only the clock; the register mapping
acquired before the interrupt request is never unmapped, so not every
already-acquired resource is released. -/
theorem C9_counterexample :
    codeReleases AcqStep.irqRequest ≠ claimedReleases AcqStep.irqRequest := by
  decide

/-- Claim C9 amended: every failure path releases an order-preserving
subsequence of the reverse-acquisition-order list (nothing unacquired, never
out of order), but not the whole list: requested interrupts are never freed
on any failure path, and the register mapping is leaked on the lookup,
interrupt-request and allocation failure paths. -/
theorem C9_unwind_partial (s : AcqStep) :
    (codeReleases s).Sublist (claimedReleases s) ∧
    RelAction.freeIrq ∉ codeReleases s ∧
    RelAction.freeErrIrq ∉ codeReleases s ∧
    RelAction.unmapRegs ∉ codeReleases AcqStep.irqRequest := by
  cases s <;> decide

/-! The interrupt-line lookup of ltdcfb_register (lines 275 to 284) with the
u32 fields irq and error_irq of struct ltdc_fb (lines 78 to 79). -/

/-- Storing a signed int return value into a u32 field: reduction of the
two-complement value mod 2 to the 32. -/
def storeU32 (r : Int) : Nat := (r % (2 ^ 32 : Int)).toNat

/-- The C comparison of a u32 field with the int literal 0: the usual
arithmetic conversions turn it into an unsigned comparison with 0. -/
def u32IsNeg (x : Nat) : Bool := decide (x % U32 < 0)

/-- The interrupt-line lookup phase of ltdcfb_register: both results are
stored into u32 fields, the error branch tests them against 0, and
otherwise registration proceeds to request an interrupt on the stored
number. ENXIO is errno 6. -/
def ltdcfb_irq_lookup (r1 r2 : Int) : Except Int Nat :=
  let irq := storeU32 r1
  let error_irq := storeU32 r2
  if u32IsNeg irq || u32IsNeg error_irq then Except.error (-6)
  else Except.ok irq

/-- Claim C10: because the fields are unsigned, the negative test is false
for every lookup result, the error branch is unreachable, and registration
proceeds to request an interrupt on the wrapped unsigned number; a failed
lookup returning the errno -6 is requested as interrupt 4294967290. -/
theorem C10_irq_branch_unreachable (r1 r2 : Int) :
    (u32IsNeg (storeU32 r1) || u32IsNeg (storeU32 r2)) = false ∧
    ltdcfb_irq_lookup r1 r2 = Except.ok (storeU32 r1) ∧
    storeU32 (-6) = 2 ^ 32 - 6 := by
  refine ⟨?_, ?_, by decide⟩
  · simp [u32IsNeg]
  · simp [ltdcfb_irq_lookup, u32IsNeg]

end LTDC
